import Mathlib

/-
Shallow embedding of the wifi-connect daemon (src/config.rs, src/network.rs,
src/server.rs).  External services (NetworkManager, dnsmasq, the channel
endpoints) are modelled as environment records whose fields give the outcome
of each service call; the pure control flow of the Rust source is translated
directly.  Machine handles (connection profiles, child processes) are
modelled as opaque numeric identifiers.
-/

namespace WifiConnect

/-- Errors are modelled as strings; error-chain style wrapping
(chain_err in the source) prepends the context tag. -/
abbrev Err := String

def chainErr (ctx : String) (e : Err) : Err := ctx ++ ": " ++ e

/-- Handle to a NetworkManager connection profile (opaque in the model). -/
abbrev Connection := Nat

/-- Handle to the dnsmasq child process (opaque in the model). -/
abbrev DnsmasqHandle := Nat

/-- Security bitflags of an access point, as tested by
access_point.security.contains in src/network.rs. -/
structure Security where
  enterprise : Bool
  wpa2 : Bool
  wpa : Bool
  wep : Bool
deriving DecidableEq

/-- An access point as returned by wifi_device.get_access_points: the SSID
may fail to decode as valid UTF-8 text, which the source observes as
ssid().as_str().is_ok(); here a failed decode is ssid = none. -/
structure RawAccessPoint where
  ssid : Option String
  security : Security
deriving DecidableEq

/-- The AP wrapper cached by the handler (src/network.rs struct AP).  Entries
only enter caches after the filter that requires a decodable SSID, so the
SSID is a plain string here. -/
structure AP where
  ssid : String
  security : Security
deriving DecidableEq

/-- NetworkManager connectivity indicator (network_manager crate). -/
inductive Connectivity
  | Unknown
  | None
  | Portal
  | Limited
  | Full
deriving DecidableEq

/-- NetworkManager connection state (network_manager crate). -/
inductive ConnectionState
  | Unknown
  | Activating
  | Activated
  | Deactivating
  | Deactivated
deriving DecidableEq

/-- NetworkManager device state (network_manager crate); only the states the
source compares against are distinguished, the rest collapse to Other. -/
inductive DeviceState
  | Activated
  | Disconnected
  | Other
deriving DecidableEq

/-- Immutable configuration value (src/config.rs struct Config).  The gateway
and paths are kept as strings since no claim depends on their structure. -/
structure Config where
  interface : Option String
  ssid : String
  passphrase : Option String
  gateway : String
  dhcp_range : String
  listening_at : String
  activity_timeout : Nat
  ui_directory : String
deriving DecidableEq

/- ----------------------------------------------------------------
Configuration derivation (src/config.rs get_config).
---------------------------------------------------------------- -/

/-- Model of the pad crate call s.pad(width, c, Alignment::Right, false):
content is right-aligned, so padding characters are prepended on the LEFT;
with truncate = false a string at least width long is returned unchanged.
Width is measured in characters (the source strings are ASCII). -/
def pad_align_right (s : String) (width : Nat) (c : Char) : String :=
  if width ≤ s.length then s
  else String.mk (List.replicate (width - s.length) c) ++ s

/-- SSID derivation from src/config.rs line 117:
format("HalleyHub-{}", &env::var("BALENA_DEVICE_UUID")?[0..12]).
The source indexes the first 12 bytes and panics on shorter input, so the
model is faithful for identity values of length at least 12 (ASCII). -/
def derive_ssid (uuid : String) : String :=
  "HalleyHub-" ++ uuid.take 12

/-- Passphrase derivation from src/config.rs line 119:
env::var("PAIRING_CODE")?.pad(8, underscore, Alignment::Right, false). -/
def derive_passphrase (code : String) : String :=
  pad_align_right code 8 '_'

/- ----------------------------------------------------------------
Access point filtering and the scan retry loop
(src/network.rs get_access_points_impl, lines 446-478).
---------------------------------------------------------------- -/

/-- The retain step at line 460: keep entries whose SSID decodes and differs
from the portal own SSID, then wrap into AP (line 467). -/
def filterAPs (own_ssid : String) (raw : List RawAccessPoint) : List AP :=
  raw.filterMap (fun r =>
    match r.ssid with
    | some s => if s ≠ own_ssid then some { ssid := s, security := r.security } else none
    | none => none)

/-- The while loop of get_access_points_impl: reads i is the outcome of the
i-th wifi_device.get_access_points() call.  The second component of the
result counts how many reads were performed (a specification observer; the
source returns only the list).  The fuel argument is 10 - retries, so the
recursion mirrors while retries < retries_allowed with retries_allowed = 10. -/
def scanAttempts (reads : Nat → Except Err (List RawAccessPoint))
    (own_ssid : String) : Nat → Nat → Except Err (List AP × Nat)
  | retries, 0 => .ok ([], retries)
  | retries, fuel + 1 =>
    match reads retries with
    | .error e => .error e
    | .ok raw =>
      let aps := filterAPs own_ssid raw
      if aps.isEmpty then scanAttempts reads own_ssid (retries + 1) fuel
      else .ok (aps, retries + 1)

/-- src/network.rs get_access_points_impl with retries_allowed = 10.  The
initial request_scan and the sleeps have no observable effect in the model. -/
def get_access_points_impl (reads : Nat → Except Err (List RawAccessPoint))
    (own_ssid : String) : Except Err (List AP × Nat) :=
  scanAttempts reads own_ssid 0 10

/-- src/network.rs get_access_points (free function, line 442): the impl with
chain_err(NoAccessPoints); the read counter is dropped. -/
def get_access_points (reads : Nat → Except Err (List RawAccessPoint))
    (own_ssid : String) : Except Err (List AP) :=
  ((get_access_points_impl reads own_ssid).map Prod.fst).mapError
    (chainErr "NoAccessPoints")

/- ----------------------------------------------------------------
Security projections (src/network.rs lines 371-394 and 487-513).
---------------------------------------------------------------- -/

inductive AccessPointCredentials
  | NoCreds
  | Wep (passphrase : String)
  | Wpa (passphrase : String)
  | Enterprise (identity : String) (passphrase : String)
deriving DecidableEq

/-- src/network.rs init_access_point_credentials. -/
def init_access_point_credentials (ap : AP) (identity passphrase : String) :
    AccessPointCredentials :=
  if ap.security.enterprise then .Enterprise identity passphrase
  else if ap.security.wpa2 || ap.security.wpa then .Wpa passphrase
  else if ap.security.wep then .Wep passphrase
  else .NoCreds

/-- src/network.rs get_network_security. -/
def get_network_security (ap : AP) : String :=
  if ap.security.enterprise then "enterprise"
  else if ap.security.wpa2 || ap.security.wpa then "wpa"
  else if ap.security.wep then "wep"
  else "none"

/-- Public projection of an access point (src/network.rs struct Network). -/
structure Network where
  ssid : String
  security : String
deriving DecidableEq

/-- src/network.rs get_network_info. -/
def get_network_info (ap : AP) : Network :=
  { ssid := ap.ssid, security := get_network_security ap }

/-- src/network.rs get_networks. -/
def get_networks (access_points : List AP) : List Network :=
  access_points.map get_network_info

/-- src/network.rs find_access_point: first entry whose SSID decodes and
equals the requested one (cached entries always decode in the model). -/
def find_access_point (access_points : List AP) (ssid : String) : Option AP :=
  access_points.find? (fun ap => ap.ssid == ssid)

/- ----------------------------------------------------------------
Connectivity probe (src/network.rs wait_for_connectivity, lines 560-591).
---------------------------------------------------------------- -/

/-- Loop body of wait_for_connectivity; polls i is the outcome of the i-th
manager.get_connectivity() call, total_time the elapsed seconds.  The fuel is
timeout + 1 - total_time, which never reaches 0 before the loop returns, so
the fuel-exhausted branch is unreachable from wait_for_connectivity. -/
def waitAux (polls : Nat → Except Err Connectivity) (timeout : Nat) :
    Nat → Nat → Except Err Bool
  | _, 0 => .ok false
  | total_time, fuel + 1 =>
    match polls total_time with
    | .error e => .error e
    | .ok c =>
      if c = Connectivity.Full ∨ c = Connectivity.Limited then .ok true
      else if timeout ≤ total_time then .ok false
      else waitAux polls timeout (total_time + 1) fuel

/-- src/network.rs wait_for_connectivity. -/
def wait_for_connectivity (polls : Nat → Except Err Connectivity)
    (timeout : Nat) : Except Err Bool :=
  waitAux polls timeout 0 (timeout + 1)

/- ----------------------------------------------------------------
Portal teardown (src/network.rs stop_portal_impl / stop_portal, lines
547-558) with an observer trace of which steps were attempted.
---------------------------------------------------------------- -/

inductive TeardownStep
  | deactivate
  | delete
  | killDnsmasq
deriving DecidableEq

/-- src/network.rs stop_portal_impl: connection.deactivate()? then
connection.delete()?.  The question-mark operator returns the first error,
so a failing deactivate skips the delete.  The second component records the
steps that were attempted. -/
def stop_portal_impl (deactivateResult deleteResult : Except Err Unit) :
    Except Err Unit × List TeardownStep :=
  match deactivateResult with
  | .error e => (.error e, [TeardownStep.deactivate])
  | .ok _ =>
    match deleteResult with
    | .error e => (.error e, [TeardownStep.deactivate, TeardownStep.delete])
    | .ok _ => (.ok (), [TeardownStep.deactivate, TeardownStep.delete])

/-- src/network.rs stop_portal: stop_portal_impl with
chain_err(StopAccessPoint). -/
def stop_portal (deactivateResult deleteResult : Except Err Unit) :
    Except Err Unit × List TeardownStep :=
  let r := stop_portal_impl deactivateResult deleteResult
  (r.1.mapError (chainErr "StopAccessPoint"), r.2)

/- ----------------------------------------------------------------
The command-driven orchestrator (src/network.rs NetworkCommandHandler).
---------------------------------------------------------------- -/

inductive NetworkCommand
  | EnableAp
  | DisableAp
  | Current
  | HasConnection
  | Activate
  | Timeout
  | Exit
  | Connect (ssid identity passphrase : String)
deriving DecidableEq

structure CurrentStatus where
  apmode : Bool
  connected : Bool
deriving DecidableEq

structure HasConnection where
  result : Bool
deriving DecidableEq

inductive NetworkCommandResponse
  | Networks (networks : List Network)
  | Current (status : CurrentStatus)
  | HasConnection (status : HasConnection)
deriving DecidableEq

/-- The mutable fields of NetworkCommandHandler (src/network.rs lines 62-72);
the channel endpoints are replaced by the explicit response list of each
step, the manager and device handles carry no state the model needs. -/
structure HandlerState where
  portal_connection : Option Connection
  dnsmasq : Option DnsmasqHandle
  access_points : List AP
  activated : Bool
  config : Config
deriving DecidableEq

/-- Outcomes of the external service calls a single command execution can
make.  each field is the result the external world would return for that
call during this command. -/
structure Env where
  reads : Nat → Except Err (List RawAccessPoint)
  deviceState : Except Err DeviceState
  hasConnDefined : Except Err Bool
  createPortal : Except Err Connection
  startDnsmasq : Except Err DnsmasqHandle
  deactivateResult : Except Err Unit
  deleteResult : Except Err Unit
  wifiConnect : Except Err (Connection × ConnectionState)
  newConnDeleteResult : Except Err Unit
  connectivity : Nat → Except Err Connectivity
  sendResult : Except Err Unit

/-- Portal session lifecycle events, used to state the at-most-one-session
invariant: created is emitted when create_portal succeeds and the handler
stores the new connection, destroyed when a stored portal connection is
dropped by a teardown. -/
inductive Event
  | created
  | destroyed
deriving DecidableEq

instance {ε α : Type} [DecidableEq ε] [DecidableEq α] :
    DecidableEq (Except ε α) := fun a b =>
  match a, b with
  | .error e, .error f =>
    if h : e = f then isTrue (by rw [h]) else isFalse (by intro hh; cases hh; exact h rfl)
  | .error _, .ok _ => isFalse (by intro hh; cases hh)
  | .ok _, .error _ => isFalse (by intro hh; cases hh)
  | .ok x, .ok y =>
    if h : x = y then isTrue (by rw [h]) else isFalse (by intro hh; cases hh; exact h rfl)

/-- Result of executing one command: the successor state, the portal
lifecycle events, the responses pushed on the server channel, and whether
run_loop returns (some result) or continues receiving (none). -/
structure StepResult where
  state : HandlerState
  events : List Event
  responses : List NetworkCommandResponse
  outcome : Option (Except Err Unit)
deriving DecidableEq

/-- NetworkCommandHandler::get_access_points (method, lines 291-302): a fresh
filtered scan, then for each cached entry whose SSID occurs in the growing
list, push that cached entry again.  The cache field itself is not
reassigned anywhere in the source. -/
def mergeLoop (fresh old : List AP) : List AP :=
  List.foldl
    (fun acc x => if acc.any (fun y => y.ssid == x.ssid) then acc ++ [x] else acc)
    fresh old

def methodGetAccessPoints (reads : Nat → Except Err (List RawAccessPoint))
    (s : HandlerState) : Except Err (List AP) :=
  match get_access_points reads s.config.ssid with
  | .error e => .error e
  | .ok fresh => .ok (mergeLoop fresh s.access_points)

/-- NetworkCommandHandler::_stop (lines 249-259): kill dnsmasq ignoring the
result, clear the handle, call stop_portal_impl ignoring the result, clear
the portal connection.  Returns the attempted teardown steps. -/
def handlerStop (env : Env) (s : HandlerState) :
    HandlerState × List TeardownStep :=
  let killSteps := match s.dnsmasq with
    | some _ => [TeardownStep.killDnsmasq]
    | none => []
  let portalSteps := match s.portal_connection with
    | some _ => (stop_portal_impl env.deactivateResult env.deleteResult).2
    | none => []
  ({ s with dnsmasq := none, portal_connection := none },
   killSteps ++ portalSteps)

/-- Portal re-raise at the end of NetworkCommandHandler::connect (line 365):
create_portal with chain_err(CreateCaptivePortal); note dnsmasq is not
restarted there.  On success connect returns Ok(false), so the loop
continues. -/
def reRaisePortal (env : Env) (s : HandlerState) (evs : List Event) :
    StepResult :=
  match env.createPortal with
  | .error e => ⟨s, evs, [], some (.error (chainErr "CreateCaptivePortal" e))⟩
  | .ok conn =>
    ⟨{ s with portal_connection := some conn }, evs ++ [Event.created], [], none⟩

/-- NetworkCommandHandler::connect after the portal teardown (lines 324-367):
rescan and merge, look up the requested SSID, attempt the join, and either
terminate the loop with success (state Activated, probe result only logged),
or fall through to re-raising the portal. -/
def connectRest (env : Env) (s : HandlerState) (evs : List Event)
    (ssid identity passphrase : String) : StepResult :=
  match methodGetAccessPoints env.reads s with
  | .error e => ⟨s, evs, [], some (.error e)⟩
  | .ok access_points =>
    match find_access_point access_points ssid with
    | some ap =>
      let _creds := init_access_point_credentials ap identity passphrase
      match env.wifiConnect with
      | .ok (_conn, state) =>
        if state = ConnectionState.Activated then
          let _probe := wait_for_connectivity env.connectivity 20
          ⟨s, evs, [], some (.ok ())⟩
        else
          let _del := env.newConnDeleteResult
          reRaisePortal env s evs
      | .error _ => reRaisePortal env s evs
    | none => reRaisePortal env s evs

/-- One iteration of NetworkCommandHandler::run_loop (lines 187-236) after a
command has been received: execute the handler for the command.  outcome =
some r models run_loop returning r (via return or via the question-mark
operator on a handler error); outcome = none models continuing the loop. -/
def execCommand (env : Env) (s : HandlerState) :
    NetworkCommand → StepResult
  | NetworkCommand.EnableAp =>
    match s.portal_connection with
    | some _ => ⟨s, [], [], none⟩
    | none =>
      match env.createPortal with
      | .error e => ⟨s, [], [], some (.error (chainErr "CreateCaptivePortal" e))⟩
      | .ok conn =>
        match env.startDnsmasq with
        | .error e =>
          ⟨{ s with portal_connection := some conn }, [Event.created], [],
           some (.error e)⟩
        | .ok d =>
          ⟨{ s with portal_connection := some conn, dnsmasq := some d },
           [Event.created], [], none⟩
  | NetworkCommand.DisableAp =>
    let destroyedEvs := match s.portal_connection with
      | some _ => [Event.destroyed]
      | none => []
    ⟨(handlerStop env s).1, destroyedEvs, [], none⟩
  | NetworkCommand.Current =>
    match env.deviceState with
    | .error e => ⟨s, [], [], some (.error e)⟩
    | .ok st =>
      let status : CurrentStatus :=
        { apmode := s.portal_connection.isNone,
          connected := st = DeviceState.Activated }
      match env.sendResult with
      | .error e => ⟨s, [], [], some (.error (chainErr "SendStatus" e))⟩
      | .ok _ => ⟨s, [], [NetworkCommandResponse.Current status], none⟩
  | NetworkCommand.HasConnection =>
    match env.hasConnDefined with
    | .error e => ⟨s, [], [], some (.error e)⟩
    | .ok b =>
      match env.sendResult with
      | .error e => ⟨s, [], [], some (.error (chainErr "SendHasConnection" e))⟩
      | .ok _ =>
        ⟨s, [], [NetworkCommandResponse.HasConnection { result := b }], none⟩
  | NetworkCommand.Activate =>
    let s1 := { s with activated := true }
    match methodGetAccessPoints env.reads s1 with
    | .error e => ⟨s1, [], [], some (.error e)⟩
    | .ok access_points =>
      let networks := get_networks access_points
      match env.sendResult with
      | .error e =>
        ⟨s1, [], [], some (.error (chainErr "SendAccessPointSSIDs" e))⟩
      | .ok _ => ⟨s1, [], [NetworkCommandResponse.Networks networks], none⟩
  | NetworkCommand.Timeout =>
    if s.activated then ⟨s, [], [], none⟩
    else ⟨s, [], [], some (.ok ())⟩
  | NetworkCommand.Exit => ⟨s, [], [], some (.ok ())⟩
  | NetworkCommand.Connect ssid identity passphrase =>
    match s.portal_connection with
    | some _ =>
      match (stop_portal env.deactivateResult env.deleteResult).1 with
      | .error e => ⟨s, [], [], some (.error e)⟩
      | .ok _ =>
        connectRest env { s with portal_connection := none }
          [Event.destroyed] ssid identity passphrase
    | none => connectRest env s [] ssid identity passphrase

/-- Cumulative result of feeding a command sequence to run_loop: processing
stops at the first command whose handler terminates the loop; outcome = none
means every command was consumed and the loop is still alive waiting on the
channel. -/
structure RunResult where
  state : HandlerState
  trace : List Event
  responses : List NetworkCommandResponse
  outcome : Option (Except Err Unit)
deriving DecidableEq

def runSteps (s : HandlerState) :
    List (NetworkCommand × Env) → RunResult
  | [] => ⟨s, [], [], none⟩
  | (c, env) :: rest =>
    let r := execCommand env s c
    match r.outcome with
    | some res => ⟨r.state, r.events, r.responses, some res⟩
    | none =>
      let rr := runSteps r.state rest
      ⟨rr.state, r.events ++ rr.trace, r.responses ++ rr.responses, rr.outcome⟩

/- ----------------------------------------------------------------
Constructor (src/network.rs NetworkCommandHandler::new, lines 75-123).
---------------------------------------------------------------- -/

/-- Service call outcomes available to the constructor. -/
structure NewEnv where
  findDevice : Except Err Unit
  hasConnDefined : Except Err Bool
  createPortal : Except Err Connection
  startDnsmasq : Except Err DnsmasqHandle
  reads : Nat → Except Err (List RawAccessPoint)

/-- NetworkCommandHandler::new: find the device, raise the portal and start
dnsmasq unless a non-portal wireless profile is already defined, scan once
and store the filtered result as the initial access point cache, with the
activated latch unset. -/
def newHandler (env : NewEnv) (config : Config) : Except Err HandlerState :=
  match env.findDevice with
  | .error e => .error e
  | .ok _ =>
    match env.hasConnDefined with
    | .error e => .error e
    | .ok b =>
      let portalAndDnsmasq : Except Err (Option Connection × Option DnsmasqHandle) :=
        if b then .ok (none, none)
        else
          match env.createPortal with
          | .error e => .error (chainErr "CreateCaptivePortal" e)
          | .ok c =>
            match env.startDnsmasq with
            | .error e => .error e
            | .ok d => .ok (some c, some d)
      match portalAndDnsmasq with
      | .error e => .error e
      | .ok (pc, dm) =>
        match get_access_points env.reads config.ssid with
        | .error e => .error e
        | .ok aps =>
          .ok { portal_connection := pc, dnsmasq := dm, access_points := aps,
                activated := false, config := config }

/- ----------------------------------------------------------------
Derived notions used by the theorems.
---------------------------------------------------------------- -/

/-- Number of portal sessions open in a state (the portal connection field is
the session of the spec data model). -/
def openOf (s : HandlerState) : Int :=
  match s.portal_connection with
  | some _ => 1
  | none => 0

def eventDelta : Event → Int
  | Event.created => 1
  | Event.destroyed => -1

/-- Number of sessions open after a trace of lifecycle events, starting from
start open sessions. -/
def openAfter (start : Int) (tr : List Event) : Int :=
  List.foldl (fun a e => a + eventDelta e) start tr

/-- At every instant along the trace (every take-n stage) at most one portal
session is open. -/
def TraceBounded (start : Int) (tr : List Event) : Prop :=
  ∀ n, openAfter start (tr.take n) ≤ 1

/-- No Networks response in the list mentions the given SSID. -/
def NetworksClean (own_ssid : String) (resps : List NetworkCommandResponse) : Prop :=
  ∀ r ∈ resps, ∀ nets, r = NetworkCommandResponse.Networks nets →
    ∀ n ∈ nets, n.ssid ≠ own_ssid

/-- Every cached access point differs from the configured portal SSID. -/
def CacheClean (s : HandlerState) : Prop :=
  ∀ ap ∈ s.access_points, ap.ssid ≠ s.config.ssid

/- ----------------------------------------------------------------
Concrete fixtures used by witnesses and counterexamples.
---------------------------------------------------------------- -/

def secOpen : Security := ⟨false, false, false, false⟩

def apAlpha : AP := ⟨"alpha", secOpen⟩

def apBeta : AP := ⟨"beta", secOpen⟩

def apGamma : AP := ⟨"gamma", secOpen⟩

def cfg0 : Config := ⟨none, "HalleyHub-xyz", some "pass0000", "g", "d", "l", 0, "ui"⟩

def s0 : HandlerState := ⟨none, none, [apAlpha], false, cfg0⟩

/-- Environment where the join attempt reaches the Activated state. -/
def envJoin : Env :=
  { reads := fun _ => .ok [⟨some "alpha", secOpen⟩],
    deviceState := .ok DeviceState.Other,
    hasConnDefined := .ok false,
    createPortal := .ok 1,
    startDnsmasq := .ok 1,
    deactivateResult := .ok (),
    deleteResult := .ok (),
    wifiConnect := .ok (7, ConnectionState.Activated),
    newConnDeleteResult := .ok (),
    connectivity := fun _ => .ok Connectivity.Full,
    sendResult := .ok () }

/-- Environment where every service call succeeds and the join attempt
fails. -/
def envBenign0 : Env :=
  { reads := fun _ => .ok [⟨some "alpha", secOpen⟩],
    deviceState := .ok DeviceState.Other,
    hasConnDefined := .ok true,
    createPortal := .ok 2,
    startDnsmasq := .ok 3,
    deactivateResult := .ok (),
    deleteResult := .ok (),
    wifiConnect := .error "join failed",
    newConnDeleteResult := .ok (),
    connectivity := fun _ => .ok Connectivity.Full,
    sendResult := .ok () }

/-- Environment where the portal deactivate step fails. -/
def envDeactFail : Env :=
  { envBenign0 with deactivateResult := .error "deact" }

def errProbe : Nat → Except Err Connectivity := fun _ => .error "probe failure"

def constructorEnv : NewEnv :=
  { findDevice := .ok (),
    hasConnDefined := .ok true,
    createPortal := .ok 2,
    startDnsmasq := .ok 3,
    reads := fun _ => .ok [⟨some "alpha", secOpen⟩, ⟨some "beta", secOpen⟩] }

/- ----------------------------------------------------------------
Lemmas about the connectivity probe loop.
---------------------------------------------------------------- -/

lemma waitAux_true (polls : Nat → Except Err Connectivity) (timeout k : Nat)
    (c : Connectivity) :
    ∀ fuel t, t ≤ k → k ≤ timeout → k < t + fuel →
    (∀ i, t ≤ i → i < k →
      ∃ ci, polls i = .ok ci ∧ ¬(ci = Connectivity.Full ∨ ci = Connectivity.Limited)) →
    polls k = .ok c → (c = Connectivity.Full ∨ c = Connectivity.Limited) →
    waitAux polls timeout t fuel = .ok true := by
  intro fuel
  induction fuel with
  | zero => intro t htk _ hlt _ _ _; omega
  | succ fuel ih =>
    intro t htk hkt hlt hbefore hk hgood
    rcases Nat.eq_or_lt_of_le htk with heq | hlt2
    · subst heq
      simp only [waitAux, hk]
      rw [if_pos hgood]
    · obtain ⟨ci, hci, hbad⟩ := hbefore t le_rfl hlt2
      simp only [waitAux, hci]
      rw [if_neg hbad, if_neg (by omega)]
      exact ih (t + 1) hlt2 hkt (by omega)
        (fun i hi1 hi2 => hbefore i (by omega) hi2) hk hgood

lemma waitAux_false (polls : Nat → Except Err Connectivity) (timeout : Nat) :
    ∀ fuel t, timeout < t + fuel → t ≤ timeout →
    (∀ i, t ≤ i → i ≤ timeout →
      ∃ ci, polls i = .ok ci ∧ ¬(ci = Connectivity.Full ∨ ci = Connectivity.Limited)) →
    waitAux polls timeout t fuel = .ok false := by
  intro fuel
  induction fuel with
  | zero => intro t h1 h2 _; omega
  | succ fuel ih =>
    intro t h1 h2 hall
    obtain ⟨ci, hci, hbad⟩ := hall t le_rfl h2
    simp only [waitAux, hci]
    rw [if_neg hbad]
    rcases Nat.eq_or_lt_of_le h2 with heq | hlt
    · rw [if_pos (by omega)]
    · rw [if_neg (by omega)]
      exact ih (t + 1) (by omega) hlt (fun i hi1 hi2 => hall i (by omega) hi2)

lemma waitAux_error (polls : Nat → Except Err Connectivity) (timeout k : Nat)
    (e : Err) :
    ∀ fuel t, t ≤ k → k ≤ timeout → k < t + fuel →
    (∀ i, t ≤ i → i < k →
      ∃ ci, polls i = .ok ci ∧ ¬(ci = Connectivity.Full ∨ ci = Connectivity.Limited)) →
    polls k = .error e →
    waitAux polls timeout t fuel = .error e := by
  intro fuel
  induction fuel with
  | zero => intro t htk _ hlt _ _; omega
  | succ fuel ih =>
    intro t htk hkt hlt hbefore hk
    rcases Nat.eq_or_lt_of_le htk with heq | hlt2
    · subst heq
      simp only [waitAux, hk]
    · obtain ⟨ci, hci, hbad⟩ := hbefore t le_rfl hlt2
      simp only [waitAux, hci]
      rw [if_neg hbad, if_neg (by omega)]
      exact ih (t + 1) hlt2 hkt (by omega)
        (fun i hi1 hi2 => hbefore i (by omega) hi2) hk

/- ----------------------------------------------------------------
Lemmas about the scan retry loop.
---------------------------------------------------------------- -/

lemma scanAttempts_ok_bound (reads : Nat → Except Err (List RawAccessPoint))
    (own : String) :
    ∀ fuel retries l n,
      scanAttempts reads own retries fuel = .ok (l, n) → n ≤ retries + fuel := by
  intro fuel
  induction fuel with
  | zero =>
    intro retries l n h
    simp only [scanAttempts] at h
    cases h
    omega
  | succ fuel ih =>
    intro retries l n h
    simp only [scanAttempts] at h
    cases hr : reads retries with
    | error e => rw [hr] at h; cases h
    | ok raw =>
      rw [hr] at h
      simp only at h
      by_cases hemp : (filterAPs own raw).isEmpty
      · rw [if_pos hemp] at h
        have := ih (retries + 1) l n h
        omega
      · rw [if_neg hemp] at h
        cases h
        omega

lemma scanAttempts_exhaust (reads : Nat → Except Err (List RawAccessPoint))
    (own : String) :
    ∀ fuel retries,
      (∀ i, retries ≤ i → i < retries + fuel →
        ∃ raw, reads i = .ok raw ∧ filterAPs own raw = []) →
      scanAttempts reads own retries fuel = .ok ([], retries + fuel) := by
  intro fuel
  induction fuel with
  | zero => intro retries _; simp [scanAttempts]
  | succ fuel ih =>
    intro retries hall
    obtain ⟨raw, hr, hf⟩ := hall retries le_rfl (by omega)
    simp only [scanAttempts, hr]
    rw [if_pos (by simp [hf])]
    have := ih (retries + 1) (fun i hi1 hi2 => hall i (by omega) (by omega))
    rw [this]
    congr 2
    omega

lemma scanAttempts_success (reads : Nat → Except Err (List RawAccessPoint))
    (own : String) (k : Nat) (raw : List RawAccessPoint) :
    ∀ fuel retries, retries ≤ k → k < retries + fuel →
      (∀ i, retries ≤ i → i < k →
        ∃ raw0, reads i = .ok raw0 ∧ filterAPs own raw0 = []) →
      reads k = .ok raw → filterAPs own raw ≠ [] →
      scanAttempts reads own retries fuel = .ok (filterAPs own raw, k + 1) := by
  intro fuel
  induction fuel with
  | zero => intro retries h1 h2 _ _ _; omega
  | succ fuel ih =>
    intro retries h1 h2 hbefore hk hne
    rcases Nat.eq_or_lt_of_le h1 with heq | hlt
    · subst heq
      simp only [scanAttempts, hk]
      rw [if_neg (by simpa [List.isEmpty_iff] using hne)]
    · obtain ⟨raw0, hr0, hf0⟩ := hbefore retries le_rfl hlt
      simp only [scanAttempts, hr0]
      rw [if_pos (by simp [hf0])]
      exact ih (retries + 1) hlt (by omega)
        (fun i hi1 hi2 => hbefore i (by omega) hi2) hk hne

lemma filterAPs_mem {own : String} {raw : List RawAccessPoint} {ap : AP}
    (h : ap ∈ filterAPs own raw) :
    ap.ssid ≠ own ∧ some ap.ssid ∈ raw.map RawAccessPoint.ssid := by
  simp only [filterAPs, List.mem_filterMap] at h
  obtain ⟨r, hr, hmap⟩ := h
  cases hs : r.ssid with
  | none => rw [hs] at hmap; cases hmap
  | some s =>
    rw [hs] at hmap
    dsimp only at hmap
    by_cases hne : s ≠ own
    · rw [if_pos hne] at hmap
      cases hmap
      exact ⟨hne, by simpa [← hs] using List.mem_map_of_mem RawAccessPoint.ssid hr⟩
    · rw [if_neg hne] at hmap
      cases hmap

lemma filterAPs_complete {own : String} {raw : List RawAccessPoint}
    {r : RawAccessPoint} {s : String}
    (hr : r ∈ raw) (hs : r.ssid = some s) (hne : s ≠ own) :
    (⟨s, r.security⟩ : AP) ∈ filterAPs own raw := by
  simp only [filterAPs, List.mem_filterMap]
  exact ⟨r, hr, by rw [hs]; simp [hne]⟩

lemma get_access_points_impl_clean
    (reads : Nat → Except Err (List RawAccessPoint)) (own : String)
    (l : List AP) (n : Nat)
    (h : get_access_points_impl reads own = .ok (l, n)) :
    ∀ ap ∈ l, ap.ssid ≠ own := by
  have main : ∀ fuel retries l n, scanAttempts reads own retries fuel = .ok (l, n) →
      ∀ ap ∈ l, ap.ssid ≠ own := by
    intro fuel
    induction fuel with
    | zero =>
      intro retries l n hh
      simp only [scanAttempts] at hh
      cases hh
      intro ap hap
      cases hap
    | succ fuel ih =>
      intro retries l n hh
      simp only [scanAttempts] at hh
      cases hr : reads retries with
      | error e => rw [hr] at hh; cases hh
      | ok raw =>
        rw [hr] at hh
        simp only at hh
        by_cases hemp : (filterAPs own raw).isEmpty
        · rw [if_pos hemp] at hh
          exact ih (retries + 1) l n hh
        · rw [if_neg hemp] at hh
          cases hh
          intro ap hap
          exact (filterAPs_mem hap).1
  exact main 10 0 l n h

lemma get_access_points_clean
    {reads : Nat → Except Err (List RawAccessPoint)} {own : String} {l : List AP}
    (h : get_access_points reads own = .ok l) :
    ∀ ap ∈ l, ap.ssid ≠ own := by
  simp only [get_access_points] at h
  cases himpl : get_access_points_impl reads own with
  | error e => rw [himpl] at h; cases h
  | ok p =>
    rw [himpl] at h
    simp only [Except.map, Except.mapError] at h
    cases h
    exact get_access_points_impl_clean reads own p.1 p.2 (by simpa using himpl)

/- ----------------------------------------------------------------
Lemmas about the merge loop of the cached and fresh access point lists.
---------------------------------------------------------------- -/

lemma any_ssid_iff (l : List AP) (x : AP) :
    (l.any fun y => y.ssid == x.ssid) = true ↔ x.ssid ∈ l.map AP.ssid := by
  simp only [List.any_eq_true, beq_iff_eq, List.mem_map]

lemma mergeLoop_go (fresh : List AP) :
    ∀ (old extra : List AP),
      (∀ y ∈ extra, y.ssid ∈ fresh.map AP.ssid) →
      List.foldl
        (fun acc x => if acc.any (fun y => y.ssid == x.ssid) then acc ++ [x] else acc)
        (fresh ++ extra) old
      = fresh ++ extra
          ++ old.filter (fun x => fresh.any (fun y => y.ssid == x.ssid)) := by
  intro old
  induction old with
  | nil => intro extra _; simp
  | cons x xs ih =>
    intro extra hextra
    rw [List.foldl_cons, List.filter_cons]
    by_cases hx : (fresh.any fun y => y.ssid == x.ssid) = true
    · have hany : ((fresh ++ extra).any fun y => y.ssid == x.ssid) = true := by
        rw [List.any_append, hx, Bool.true_or]
      have hext2 : ∀ y ∈ extra ++ [x], y.ssid ∈ fresh.map AP.ssid := by
        intro y hy
        rcases List.mem_append.mp hy with h | h
        · exact hextra y h
        · have heq := List.mem_singleton.mp h
          rw [heq]
          exact (any_ssid_iff fresh x).mp hx
      rw [if_pos hany, if_pos hx, List.append_assoc fresh extra [x],
        ih (extra ++ [x]) hext2]
      simp
    · have hany : ¬((fresh ++ extra).any fun y => y.ssid == x.ssid) = true := by
        rw [List.any_append]
        simp only [Bool.or_eq_true]
        rintro (h | h)
        · exact hx h
        · obtain ⟨y, hy, hyx⟩ := List.any_eq_true.mp h
          have hmem : x.ssid ∈ List.map AP.ssid fresh :=
            beq_iff_eq.mp hyx ▸ hextra y hy
          exact hx ((any_ssid_iff fresh x).mpr hmem)
      rw [if_neg hany, if_neg hx]
      exact ih extra hextra

lemma mergeLoop_eq (fresh old : List AP) :
    mergeLoop fresh old
      = fresh ++ old.filter (fun x => fresh.any (fun y => y.ssid == x.ssid)) := by
  have := mergeLoop_go fresh old [] (by intro y hy; cases hy)
  simpa [mergeLoop] using this

lemma count_filter_map_ssid (fresh : List AP) (s : String) :
    ∀ old : List AP,
      List.count s
        ((old.filter fun x => fresh.any fun y => y.ssid == x.ssid).map AP.ssid)
      = if s ∈ fresh.map AP.ssid then List.count s (old.map AP.ssid) else 0 := by
  intro old
  induction old with
  | nil => simp
  | cons x xs ih =>
    rw [List.filter_cons]
    by_cases hx : (fresh.any fun y => y.ssid == x.ssid) = true
    · rw [if_pos hx]
      have hxm : x.ssid ∈ fresh.map AP.ssid := (any_ssid_iff fresh x).mp hx
      by_cases hs : s ∈ fresh.map AP.ssid
      · simp only [List.map_cons, List.count_cons, ih, if_pos hs]
      · have hne : ¬(x.ssid == s) = true := by
          intro hc
          exact hs (beq_iff_eq.mp hc ▸ hxm)
        simp only [List.map_cons, List.count_cons, ih, if_neg hs, if_neg hne]
    · rw [if_neg hx]
      have hxm : x.ssid ∉ fresh.map AP.ssid :=
        fun hc => hx ((any_ssid_iff fresh x).mpr hc)
      by_cases hs : s ∈ fresh.map AP.ssid
      · have hne : ¬(x.ssid == s) = true := by
          intro hc
          exact hxm (beq_iff_eq.mp hc ▸ hs)
        simp only [ih, if_pos hs, List.map_cons, List.count_cons, if_neg hne]
        simp
      · simp only [ih, if_neg hs]

lemma mergeLoop_mem {fresh old : List AP} {x : AP} (h : x ∈ mergeLoop fresh old) :
    x ∈ fresh ∨ x ∈ old := by
  rw [mergeLoop_eq] at h
  rcases List.mem_append.mp h with h | h
  · exact Or.inl h
  · exact Or.inr (List.mem_of_mem_filter h)

/-- Responses emitted by a successful Activate: the Networks projection of
the merged list. -/
lemma activate_responses (env : Env) (s : HandlerState) (fresh : List AP)
    (hscan : get_access_points env.reads s.config.ssid = .ok fresh)
    (hsend : env.sendResult = .ok ()) :
    (execCommand env s NetworkCommand.Activate).responses
      = [NetworkCommandResponse.Networks
          (get_networks (mergeLoop fresh s.access_points))] := by
  simp [execCommand, methodGetAccessPoints, hscan, hsend]

/- ----------------------------------------------------------------
Claim C3 (error handling of portal teardown).
---------------------------------------------------------------- -/

/-- C3 counterexample: with a failing deactivate, stop_portal_impl raises the
error to its caller and never attempts the delete step, refuting the claim
that teardown attempts every step and never raises. -/
theorem C3_counterexample :
    stop_portal_impl (.error "deactivate failed") (.ok ())
      = (.error "deactivate failed", [TeardownStep.deactivate]) := rfl

/-- C3 amended: the teardown in _stop (DisableAp and final shutdown) never
raises and always clears both the helper process and the portal connection,
but stop_portal_impl stops at the first failing step (a deactivate failure
skips the delete and returns the error), and in the Connect handler a
failing deactivate propagates out of the handler and terminates the loop
with that error. -/
theorem C3_teardown_amended :
    (∀ env s, (handlerStop env s).1.portal_connection = none ∧
      (handlerStop env s).1.dnsmasq = none) ∧
    (∀ e del, stop_portal_impl (.error e) del
      = (.error e, [TeardownStep.deactivate])) ∧
    (∀ env s ssid identity passphrase c e,
      s.portal_connection = some c → env.deactivateResult = .error e →
      (execCommand env s (NetworkCommand.Connect ssid identity passphrase)).outcome
        = some (.error (chainErr "StopAccessPoint" e))) := by
  refine ⟨fun env s => ⟨rfl, rfl⟩, fun e del => rfl, ?_⟩
  intro env s ssid identity passphrase c e hp hd
  simp [execCommand, hp, stop_portal, stop_portal_impl, hd, Except.mapError]

/-- C3 witness: the amended theorem applied to a concrete state with a live
portal and a failing deactivate call. -/
theorem C3_teardown_amended_witness :
    (execCommand envDeactFail { s0 with portal_connection := some 2 }
      (NetworkCommand.Connect "alpha" "" "")).outcome
      = some (.error (chainErr "StopAccessPoint" "deact")) :=
  C3_teardown_amended.2.2 envDeactFail { s0 with portal_connection := some 2 }
    "alpha" "" "" 2 "deact" rfl rfl

/- ----------------------------------------------------------------
Claim C5 (connectivity probe).
---------------------------------------------------------------- -/

/-- C5 counterexample: a failing poll makes wait_for_connectivity return an
error to its caller rather than degrading to false, refuting the claim that
the probe never errors. -/
theorem C5_counterexample :
    wait_for_connectivity errProbe 20 = .error "probe failure" := rfl

/-- C5 amended: the probe returns true as soon as a poll reports Full or
Limited connectivity, false when the elapsed time reaches the timeout with
only unsuccessful polls, and a poll failure is propagated to the caller as
an error (the Connect handler then merely logs it). -/
theorem C5_probe_amended (polls : Nat → Except Err Connectivity) (timeout : Nat) :
    (∀ k c, k ≤ timeout →
      (∀ i, i < k → ∃ ci, polls i = .ok ci ∧
        ¬(ci = Connectivity.Full ∨ ci = Connectivity.Limited)) →
      polls k = .ok c → (c = Connectivity.Full ∨ c = Connectivity.Limited) →
      wait_for_connectivity polls timeout = .ok true) ∧
    ((∀ i, i ≤ timeout → ∃ ci, polls i = .ok ci ∧
        ¬(ci = Connectivity.Full ∨ ci = Connectivity.Limited)) →
      wait_for_connectivity polls timeout = .ok false) ∧
    (∀ k e, k ≤ timeout →
      (∀ i, i < k → ∃ ci, polls i = .ok ci ∧
        ¬(ci = Connectivity.Full ∨ ci = Connectivity.Limited)) →
      polls k = .error e →
      wait_for_connectivity polls timeout = .error e) := by
  refine ⟨?_, ?_, ?_⟩
  · intro k c hk hbefore hpoll hgood
    exact waitAux_true polls timeout k c (timeout + 1) 0 (Nat.zero_le k) hk
      (by omega) (fun i _ hi => hbefore i hi) hpoll hgood
  · intro hall
    exact waitAux_false polls timeout (timeout + 1) 0 (by omega) (Nat.zero_le _)
      (fun i _ hi => hall i hi)
  · intro k e hk hbefore hpoll
    exact waitAux_error polls timeout k e (timeout + 1) 0 (Nat.zero_le k) hk
      (by omega) (fun i _ hi => hbefore i hi) hpoll

/-- C5 witness: the amended theorem applied to a probe that reports Full
connectivity on the second poll. -/
theorem C5_probe_amended_witness :
    wait_for_connectivity
      (fun i => if i = 0 then .ok Connectivity.None else .ok Connectivity.Full)
      5 = .ok true :=
  (C5_probe_amended
      (fun i => if i = 0 then .ok Connectivity.None else .ok Connectivity.Full)
      5).1 1 Connectivity.Full (by omega)
    (fun i hi => by
      have h0 : i = 0 := by omega
      subst h0
      exact ⟨Connectivity.None, rfl, by simp⟩)
    (by simp) (by simp)

/- ----------------------------------------------------------------
Claim C6 (scan retry bound, filtering, non-fatal exhaustion).
---------------------------------------------------------------- -/

/-- C6: the scanner performs at most 10 read attempts (the counter returned
by the model is the number of reads performed), every returned entry has a
decodable SSID different from the portal own SSID and stems from the raw
read (and conversely nothing else is dropped), a first non-empty filtered
read at attempt k ends the loop after k + 1 reads, and when all 10 reads
yield an empty filtered set the result is the empty list, not an error. -/
theorem C6_scanner (reads : Nat → Except Err (List RawAccessPoint))
    (own_ssid : String) :
    (∀ l n, get_access_points_impl reads own_ssid = .ok (l, n) → n ≤ 10) ∧
    (∀ raw, (∀ ap ∈ filterAPs own_ssid raw,
        ap.ssid ≠ own_ssid ∧ some ap.ssid ∈ raw.map RawAccessPoint.ssid) ∧
      (∀ r ∈ raw, ∀ sd, r.ssid = some sd → sd ≠ own_ssid →
        (⟨sd, r.security⟩ : AP) ∈ filterAPs own_ssid raw)) ∧
    (∀ k raw, k < 10 →
      (∀ i, i < k → ∃ raw0, reads i = .ok raw0 ∧ filterAPs own_ssid raw0 = []) →
      reads k = .ok raw → filterAPs own_ssid raw ≠ [] →
      get_access_points_impl reads own_ssid = .ok (filterAPs own_ssid raw, k + 1)) ∧
    ((∀ i, i < 10 → ∃ raw, reads i = .ok raw ∧ filterAPs own_ssid raw = []) →
      get_access_points_impl reads own_ssid = .ok ([], 10)) := by
  refine ⟨?_, ?_, ?_, ?_⟩
  · intro l n h
    simpa using scanAttempts_ok_bound reads own_ssid 10 0 l n h
  · intro raw
    exact ⟨fun ap hap => filterAPs_mem hap,
      fun r hr sd hsd hne => filterAPs_complete hr hsd hne⟩
  · intro k raw hk hbefore hread hne
    exact scanAttempts_success reads own_ssid k raw 10 0 (Nat.zero_le k)
      (by omega) (fun i _ hi => hbefore i hi) hread hne
  · intro hall
    exact scanAttempts_exhaust reads own_ssid 10 0 (fun i _ hi => hall i hi)

/-- C6 witness: the theorem applied to reads that always yield an empty
filtered set, giving the empty list after exactly 10 attempts. -/
theorem C6_scanner_witness :
    get_access_points_impl (fun _ => .ok [⟨none, secOpen⟩]) "own" = .ok ([], 10) :=
  (C6_scanner (fun _ => .ok [⟨none, secOpen⟩]) "own").2.2.2
    (fun _ _ => ⟨[⟨none, secOpen⟩], rfl, rfl⟩)

/- ----------------------------------------------------------------
Claim C7 (derived SSID and passphrase).
---------------------------------------------------------------- -/

/-- C7 counterexample: the pairing code abc is padded on the LEFT, giving
underscores before the code, not after it as the claim states. -/
theorem C7_counterexample :
    derive_passphrase "abc" = "_____abc" ∧ derive_passphrase "abc" ≠ "abc_____" := by
  constructor
  · decide
  · decide

/-- C7 amended: the SSID is the fixed prefix, a dash and the first 12
characters of the device identity; the passphrase is the pairing code padded
with underscores on the LEFT to a length of at least 8 (values already 8 or
longer are unchanged). -/
theorem C7_config_amended (uuid code : String) :
    (12 ≤ uuid.length → derive_ssid uuid = "HalleyHub-" ++ uuid.take 12) ∧
    (8 ≤ code.length → derive_passphrase code = code) ∧
    (code.length < 8 →
      derive_passphrase code
        = String.mk (List.replicate (8 - code.length) '_') ++ code) := by
  refine ⟨fun _ => rfl, ?_, ?_⟩
  · intro h
    simp [derive_passphrase, pad_align_right, h]
  · intro h
    simp [derive_passphrase, pad_align_right, Nat.not_le.mpr h]

/-- C7 witness: the amended theorem applied to a 16-character identity and a
3-character pairing code. -/
theorem C7_config_amended_witness :
    derive_ssid "0123456789abcdef" = "HalleyHub-" ++ "0123456789abcdef".take 12 ∧
    derive_passphrase "abc" = String.mk (List.replicate (8 - "abc".length) '_') ++ "abc" :=
  ⟨(C7_config_amended "0123456789abcdef" "abc").1 (by decide),
   (C7_config_amended "0123456789abcdef" "abc").2.2 (by decide)⟩

/- ----------------------------------------------------------------
Field preservation of the command handlers.
---------------------------------------------------------------- -/

lemma reRaisePortal_fields (env : Env) (s : HandlerState) (evs : List Event) :
    (reRaisePortal env s evs).state.access_points = s.access_points ∧
    (reRaisePortal env s evs).state.config = s.config ∧
    (reRaisePortal env s evs).state.activated = s.activated := by
  cases h : env.createPortal with
  | error e => simp [reRaisePortal, h]
  | ok c => simp [reRaisePortal, h]

lemma connectRest_fields (env : Env) (s : HandlerState) (evs : List Event)
    (ssid identity passphrase : String) :
    (connectRest env s evs ssid identity passphrase).state.access_points
      = s.access_points ∧
    (connectRest env s evs ssid identity passphrase).state.config = s.config ∧
    (connectRest env s evs ssid identity passphrase).state.activated
      = s.activated := by
  unfold connectRest
  cases h1 : methodGetAccessPoints env.reads s with
  | error e => exact ⟨rfl, rfl, rfl⟩
  | ok aps =>
    dsimp only
    cases h2 : find_access_point aps ssid with
    | none => exact reRaisePortal_fields env s evs
    | some ap =>
      dsimp only
      cases h3 : env.wifiConnect with
      | error e => exact reRaisePortal_fields env s evs
      | ok p =>
        obtain ⟨pc, pst⟩ := p
        dsimp only
        by_cases h4 : pst = ConnectionState.Activated
        · rw [if_pos h4]
          exact ⟨rfl, rfl, rfl⟩
        · rw [if_neg h4]
          exact reRaisePortal_fields env s evs

lemma execCommand_fields (env : Env) (s : HandlerState) (c : NetworkCommand) :
    (execCommand env s c).state.access_points = s.access_points ∧
    (execCommand env s c).state.config = s.config ∧
    (s.activated = true → (execCommand env s c).state.activated = true) := by
  cases c with
  | EnableAp =>
    cases hp : s.portal_connection with
    | some conn => simp [execCommand, hp]
    | none =>
      cases h1 : env.createPortal with
      | error e => simp [execCommand, hp, h1]
      | ok conn =>
        cases h2 : env.startDnsmasq with
        | error e => simp [execCommand, hp, h1, h2]
        | ok d => simp [execCommand, hp, h1, h2]
  | DisableAp => exact ⟨rfl, rfl, fun h => h⟩
  | Current =>
    cases h1 : env.deviceState with
    | error e => simp [execCommand, h1]
    | ok st =>
      cases h2 : env.sendResult with
      | error e => simp [execCommand, h1, h2]
      | ok u => simp [execCommand, h1, h2]
  | HasConnection =>
    cases h1 : env.hasConnDefined with
    | error e => simp [execCommand, h1]
    | ok b =>
      cases h2 : env.sendResult with
      | error e => simp [execCommand, h1, h2]
      | ok u => simp [execCommand, h1, h2]
  | Activate =>
    cases h1 : methodGetAccessPoints env.reads { s with activated := true } with
    | error e => simp [execCommand, h1]
    | ok aps =>
      cases h2 : env.sendResult with
      | error e => simp [execCommand, h1, h2]
      | ok u => simp [execCommand, h1, h2]
  | Timeout =>
    by_cases h : s.activated
    · simp [execCommand, h]
    · simp [execCommand, h]
  | Exit => exact ⟨rfl, rfl, fun h => h⟩
  | Connect ssid identity passphrase =>
    cases hp : s.portal_connection with
    | none =>
      have h := connectRest_fields env s [] ssid identity passphrase
      simp only [execCommand, hp]
      exact ⟨h.1, h.2.1, fun ha => h.2.2.trans ha⟩
    | some conn =>
      cases h1 : (stop_portal env.deactivateResult env.deleteResult).1 with
      | error e => simp [execCommand, hp, h1]
      | ok u =>
        have h := connectRest_fields env { s with portal_connection := none }
          [Event.destroyed] ssid identity passphrase
        simp only [execCommand, hp, h1]
        exact ⟨h.1, h.2.1, fun ha => h.2.2.trans ha⟩

lemma activate_sets_latch (env : Env) (s : HandlerState) :
    (execCommand env s NetworkCommand.Activate).state.activated = true := by
  cases h1 : methodGetAccessPoints env.reads { s with activated := true } with
  | error e => simp [execCommand, h1]
  | ok aps =>
    cases h2 : env.sendResult with
    | error e => simp [execCommand, h1, h2]
    | ok u => simp [execCommand, h1, h2]

/- ----------------------------------------------------------------
Claim C1 (Activate merge policy and resulting SSID multiplicities).
---------------------------------------------------------------- -/

/-- C1: a successful Activate emits exactly the fresh filtered scan followed
by the cached entries whose SSID also occurs in the fresh list, and with
duplicate-free SSID lists an SSID in both lists appears twice, a vanished
SSID zero times, and a new SSID exactly once. -/
theorem C1_activate_merge :
    (∀ env s fresh, get_access_points env.reads s.config.ssid = .ok fresh →
      env.sendResult = .ok () →
      (execCommand env s NetworkCommand.Activate).responses
        = [NetworkCommandResponse.Networks
            (get_networks (mergeLoop fresh s.access_points))]) ∧
    (∀ fresh old, mergeLoop fresh old
      = fresh ++ old.filter (fun x => fresh.any (fun y => y.ssid == x.ssid))) ∧
    (∀ fresh old s, (fresh.map AP.ssid).Nodup → (old.map AP.ssid).Nodup →
      (s ∈ fresh.map AP.ssid → s ∈ old.map AP.ssid →
        List.count s ((mergeLoop fresh old).map AP.ssid) = 2) ∧
      (s ∉ fresh.map AP.ssid →
        List.count s ((mergeLoop fresh old).map AP.ssid) = 0) ∧
      (s ∈ fresh.map AP.ssid → s ∉ old.map AP.ssid →
        List.count s ((mergeLoop fresh old).map AP.ssid) = 1)) := by
  refine ⟨activate_responses, mergeLoop_eq, ?_⟩
  intro fresh old s hfresh hold
  have hexp : (mergeLoop fresh old).map AP.ssid
      = fresh.map AP.ssid
        ++ ((old.filter fun x => fresh.any fun y => y.ssid == x.ssid).map AP.ssid) := by
    rw [mergeLoop_eq, List.map_append]
  refine ⟨?_, ?_, ?_⟩
  · intro hsf hso
    rw [hexp, List.count_append, count_filter_map_ssid, if_pos hsf,
      List.count_eq_one_of_mem hfresh hsf, List.count_eq_one_of_mem hold hso]
  · intro hsf
    rw [hexp, List.count_append, count_filter_map_ssid, if_neg hsf,
      List.count_eq_zero_of_not_mem hsf]
  · intro hsf hso
    rw [hexp, List.count_append, count_filter_map_ssid, if_pos hsf,
      List.count_eq_one_of_mem hfresh hsf, List.count_eq_zero_of_not_mem hso]

/-- C1 witness: merging old cache entries alpha and beta with a fresh scan of
alpha and gamma yields alpha twice, beta zero times and gamma once. -/
theorem C1_activate_merge_witness :
    List.count "alpha" ((mergeLoop [apAlpha, apGamma] [apAlpha, apBeta]).map AP.ssid) = 2 ∧
    List.count "beta" ((mergeLoop [apAlpha, apGamma] [apAlpha, apBeta]).map AP.ssid) = 0 ∧
    List.count "gamma" ((mergeLoop [apAlpha, apGamma] [apAlpha, apBeta]).map AP.ssid) = 1 :=
  ⟨(C1_activate_merge.2.2 [apAlpha, apGamma] [apAlpha, apBeta] "alpha"
      (by decide) (by decide)).1 (by decide) (by decide),
   (C1_activate_merge.2.2 [apAlpha, apGamma] [apAlpha, apBeta] "beta"
      (by decide) (by decide)).2.1 (by decide),
   (C1_activate_merge.2.2 [apAlpha, apGamma] [apAlpha, apBeta] "gamma"
      (by decide) (by decide)).2.2 (by decide) (by decide)⟩

/- ----------------------------------------------------------------
Claim C4 (Timeout terminates exactly while the activated latch is unset).
---------------------------------------------------------------- -/

/-- C4: a Timeout command terminates the loop with a success result exactly
when the activated latch is unset; when the latch is set the loop continues;
the Activate handler always leaves the latch set, and no handler ever clears
a set latch, so every Timeout after an Activate is ignored. -/
theorem C4_timeout_latch (env : Env) (s : HandlerState) :
    ((execCommand env s NetworkCommand.Timeout).outcome = some (.ok ())
      ↔ s.activated = false) ∧
    (s.activated = true →
      (execCommand env s NetworkCommand.Timeout).outcome = none) ∧
    ((execCommand env s NetworkCommand.Activate).state.activated = true) ∧
    (∀ c, s.activated = true → (execCommand env s c).state.activated = true) := by
  refine ⟨?_, ?_, activate_sets_latch env s, fun c => (execCommand_fields env s c).2.2⟩
  · by_cases h : s.activated
    · simp [execCommand, h]
    · simp [execCommand, h]
  · intro h
    simp [execCommand, h]

/-- C4 witness: in the initial state, whose latch is unset, Timeout
terminates the loop with a success result. -/
theorem C4_timeout_latch_witness :
    (execCommand envBenign0 s0 NetworkCommand.Timeout).outcome = some (.ok ()) :=
  (C4_timeout_latch envBenign0 s0).1.mpr rfl

/- ----------------------------------------------------------------
Claim C8 (successful Connect terminates regardless of probe outcome).
---------------------------------------------------------------- -/

/-- C8: when the requested SSID is found in the merged list and the join
attempt reaches the Activated state, the Connect handler terminates the loop
with a success result for every possible connectivity probe outcome. -/
theorem C8_connect_activated (env : Env)
    (probe : Nat → Except Err Connectivity) (s : HandlerState)
    (ssid identity passphrase : String) (fresh : List AP) (ap : AP)
    (conn : Connection)
    (hport : s.portal_connection = none ∨
      (env.deactivateResult = .ok () ∧ env.deleteResult = .ok ()))
    (hscan : get_access_points env.reads s.config.ssid = .ok fresh)
    (hfind : find_access_point (mergeLoop fresh s.access_points) ssid = some ap)
    (hjoin : env.wifiConnect = .ok (conn, ConnectionState.Activated)) :
    (execCommand { env with connectivity := probe } s
      (NetworkCommand.Connect ssid identity passphrase)).outcome
      = some (.ok ()) := by
  cases hp : s.portal_connection with
  | none =>
    simp [execCommand, hp, connectRest, methodGetAccessPoints, hscan, hfind, hjoin]
  | some c =>
    rcases hport with h | ⟨hd, hdel⟩
    · rw [hp] at h; cases h
    · simp [execCommand, hp, stop_portal, stop_portal_impl, hd, hdel,
        Except.mapError, connectRest, methodGetAccessPoints, hscan, hfind, hjoin]

/-- C8 witness: the theorem applied to a concrete environment that joins
successfully while the connectivity probe fails. -/
theorem C8_connect_activated_witness :
    (execCommand { envJoin with connectivity := fun _ => .error "probe down" }
      s0 (NetworkCommand.Connect "alpha" "" "")).outcome = some (.ok ()) :=
  C8_connect_activated envJoin (fun _ => .error "probe down") s0 "alpha" "" ""
    [apAlpha] apAlpha 7 (Or.inl rfl) rfl rfl rfl

/- ----------------------------------------------------------------
Response cleanliness lemmas for the run-level portal SSID invariant.
---------------------------------------------------------------- -/

lemma networksClean_nil (own : String) : NetworksClean own [] := by
  intro r hr
  cases hr

lemma reRaisePortal_responses (env : Env) (s : HandlerState) (evs : List Event) :
    (reRaisePortal env s evs).responses = [] := by
  cases h : env.createPortal with
  | error e => simp [reRaisePortal, h]
  | ok c => simp [reRaisePortal, h]

lemma connectRest_responses (env : Env) (s : HandlerState) (evs : List Event)
    (ssid identity passphrase : String) :
    (connectRest env s evs ssid identity passphrase).responses = [] := by
  unfold connectRest
  cases h1 : methodGetAccessPoints env.reads s with
  | error e => rfl
  | ok aps =>
    dsimp only
    cases h2 : find_access_point aps ssid with
    | none => exact reRaisePortal_responses env s evs
    | some ap =>
      dsimp only
      cases h3 : env.wifiConnect with
      | error e => exact reRaisePortal_responses env s evs
      | ok p =>
        obtain ⟨pc, pst⟩ := p
        dsimp only
        by_cases h4 : pst = ConnectionState.Activated
        · rw [if_pos h4]
        · rw [if_neg h4]
          exact reRaisePortal_responses env s evs

/-- The networks emitted by a successful Activate stem from the merged list,
whose members all come from either the fresh filtered scan or the cache. -/
lemma execCommand_responses_clean (env : Env) (s : HandlerState)
    (c : NetworkCommand) (hclean : CacheClean s) :
    NetworksClean s.config.ssid (execCommand env s c).responses := by
  cases c with
  | EnableAp =>
    cases hp : s.portal_connection with
    | some conn => simp [execCommand, hp, NetworksClean]
    | none =>
      cases h1 : env.createPortal with
      | error e => simp [execCommand, hp, h1, NetworksClean]
      | ok conn =>
        cases h2 : env.startDnsmasq with
        | error e => simp [execCommand, hp, h1, h2, NetworksClean]
        | ok d => simp [execCommand, hp, h1, h2, NetworksClean]
  | DisableAp => exact networksClean_nil _
  | Current =>
    intro r hr nets heq n hn
    rw [heq] at hr
    revert hr
    cases h1 : env.deviceState with
    | error e => simp [execCommand, h1]
    | ok st =>
      cases h2 : env.sendResult with
      | error e => simp [execCommand, h1, h2]
      | ok u => simp [execCommand, h1, h2]
  | HasConnection =>
    intro r hr nets heq n hn
    rw [heq] at hr
    revert hr
    cases h1 : env.hasConnDefined with
    | error e => simp [execCommand, h1]
    | ok b =>
      cases h2 : env.sendResult with
      | error e => simp [execCommand, h1, h2]
      | ok u => simp [execCommand, h1, h2]
  | Timeout =>
    by_cases h : s.activated
    · simp [execCommand, h, NetworksClean]
    · simp [execCommand, h, NetworksClean]
  | Exit => exact networksClean_nil _
  | Activate =>
    intro r hr nets heq n hn
    cases h1 : get_access_points env.reads s.config.ssid with
    | error e =>
      have : (execCommand env s NetworkCommand.Activate).responses = [] := by
        simp [execCommand, methodGetAccessPoints, h1]
      rw [this] at hr
      cases hr
    | ok fresh =>
      cases h2 : env.sendResult with
      | error e =>
        have : (execCommand env s NetworkCommand.Activate).responses = [] := by
          simp [execCommand, methodGetAccessPoints, h1, h2]
        rw [this] at hr
        cases hr
      | ok u =>
        have hresp := activate_responses env s fresh h1 (by rw [h2])
        rw [hresp] at hr
        have hre := List.mem_singleton.mp hr
        rw [hre] at heq
        cases heq
        obtain ⟨ap, hap, hni⟩ := List.mem_map.mp hn
        rw [← hni]
        show ap.ssid ≠ s.config.ssid
        rcases mergeLoop_mem hap with hm | hm
        · exact get_access_points_clean h1 ap hm
        · exact hclean ap hm
  | Connect ssid identity passphrase =>
    cases hp : s.portal_connection with
    | none =>
      intro r hr
      have : (execCommand env s (NetworkCommand.Connect ssid identity passphrase)).responses
          = [] := by
        simp only [execCommand, hp]
        exact connectRest_responses env s [] ssid identity passphrase
      rw [this] at hr
      cases hr
    | some conn =>
      intro r hr
      cases h1 : (stop_portal env.deactivateResult env.deleteResult).1 with
      | error e =>
        have : (execCommand env s (NetworkCommand.Connect ssid identity passphrase)).responses
            = [] := by
          simp [execCommand, hp, h1]
        rw [this] at hr
        cases hr
      | ok u =>
        have : (execCommand env s (NetworkCommand.Connect ssid identity passphrase)).responses
            = [] := by
          simp only [execCommand, hp, h1]
          exact connectRest_responses env _ [Event.destroyed] ssid identity passphrase
        rw [this] at hr
        cases hr

lemma runSteps_networks_clean :
    ∀ (steps : List (NetworkCommand × Env)) (s : HandlerState), CacheClean s →
      NetworksClean s.config.ssid (runSteps s steps).responses := by
  intro steps
  induction steps with
  | nil => intro s _; exact networksClean_nil _
  | cons p rest ih =>
    intro s h
    obtain ⟨c, env⟩ := p
    have h1 := execCommand_responses_clean env s c h
    have hfields := execCommand_fields env s c
    have hclean2 : CacheClean (execCommand env s c).state := by
      intro ap hap
      rw [hfields.2.1]
      exact h ap (hfields.1 ▸ hap)
    have h2 := ih (execCommand env s c).state hclean2
    rw [hfields.2.1] at h2
    simp only [runSteps]
    cases ho : (execCommand env s c).outcome with
    | some res =>
      dsimp only
      exact h1
    | none =>
      dsimp only
      intro r hr nets heq n hn
      rcases List.mem_append.mp hr with hrr | hrr
      · exact h1 r hrr nets heq n hn
      · exact h2 r hrr nets heq n hn

/-- Inversion of the constructor: a successfully built handler starts with
the configured value, an unset latch, and the filtered startup scan as its
cache. -/
lemma newHandler_ok {nenv : NewEnv} {cfg : Config} {s : HandlerState}
    (h : newHandler nenv cfg = .ok s) :
    s.config = cfg ∧ s.activated = false ∧
    get_access_points nenv.reads cfg.ssid = .ok s.access_points := by
  unfold newHandler at h
  cases h1 : nenv.findDevice with
  | error e => rw [h1] at h; cases h
  | ok u =>
    rw [h1] at h
    dsimp only at h
    cases h2 : nenv.hasConnDefined with
    | error e => rw [h2] at h; cases h
    | ok b =>
      rw [h2] at h
      dsimp only at h
      by_cases hb : b = true
      · rw [if_pos hb] at h
        dsimp only at h
        cases h3 : get_access_points nenv.reads cfg.ssid with
        | error e => rw [h3] at h; cases h
        | ok aps =>
          rw [h3] at h
          dsimp only at h
          cases h
          exact ⟨rfl, rfl, rfl⟩
      · rw [if_neg hb] at h
        cases h4 : nenv.createPortal with
        | error e => rw [h4] at h; cases h
        | ok c =>
          rw [h4] at h
          dsimp only at h
          cases h5 : nenv.startDnsmasq with
          | error e => rw [h5] at h; cases h
          | ok d =>
            rw [h5] at h
            dsimp only at h
            cases h3 : get_access_points nenv.reads cfg.ssid with
            | error e => rw [h3] at h; cases h
            | ok aps =>
              rw [h3] at h
              dsimp only at h
              cases h
              exact ⟨rfl, rfl, rfl⟩

/- ----------------------------------------------------------------
Claim C9 (no returned list ever contains the portal SSID).
---------------------------------------------------------------- -/

/-- C9: the constructor produces a cache free of the portal SSID, and from
any such state every Networks response emitted during any command sequence
is free of the portal SSID (the fresh filtered part never contains it and
neither does the cached part). -/
theorem C9_no_portal_ssid :
    (∀ nenv cfg s, newHandler nenv cfg = .ok s → CacheClean s) ∧
    (∀ s steps, CacheClean s →
      NetworksClean s.config.ssid (runSteps s steps).responses) := by
  constructor
  · intro nenv cfg s h
    obtain ⟨hcfg, _, hscan⟩ := newHandler_ok h
    intro ap hap
    rw [hcfg]
    exact get_access_points_clean hscan ap hap
  · intro s steps h
    exact runSteps_networks_clean steps s h

/-- C9 witness: a constructed handler processing an Activate emits only
Networks lists free of the portal SSID. -/
theorem C9_no_portal_ssid_witness :
    NetworksClean cfg0.ssid
      (runSteps ⟨none, none, [apAlpha, apBeta], false, cfg0⟩
        [(NetworkCommand.Activate, envBenign0)]).responses :=
  C9_no_portal_ssid.2 ⟨none, none, [apAlpha, apBeta], false, cfg0⟩
    [(NetworkCommand.Activate, envBenign0)]
    (C9_no_portal_ssid.1 constructorEnv cfg0
      ⟨none, none, [apAlpha, apBeta], false, cfg0⟩ rfl)

/- ----------------------------------------------------------------
Claim C10 (startup scan seeds the cache before the first command).
---------------------------------------------------------------- -/

/-- C10: the constructor stores the filtered startup scan as the initial
cache with the latch unset; hence when the startup scan found at least one
network, the first Activate merges its fresh scan against that non-empty
prior cache. -/
theorem C10_initial_cache (nenv : NewEnv) (cfg : Config) (s : HandlerState)
    (aps : List AP)
    (hnew : newHandler nenv cfg = .ok s)
    (hscan : get_access_points nenv.reads cfg.ssid = .ok aps) :
    s.access_points = aps ∧ s.config = cfg ∧ s.activated = false ∧
    (aps ≠ [] → s.access_points ≠ []) ∧
    (∀ env fresh, get_access_points env.reads cfg.ssid = .ok fresh →
      env.sendResult = .ok () →
      (execCommand env s NetworkCommand.Activate).responses
        = [NetworkCommandResponse.Networks (get_networks (mergeLoop fresh aps))]) := by
  obtain ⟨hcfg, hact, hscan2⟩ := newHandler_ok hnew
  rw [hscan] at hscan2
  have haps : s.access_points = aps := by
    cases hscan2
    rfl
  refine ⟨haps, hcfg, hact, fun hne => haps ▸ hne, ?_⟩
  intro env fresh hf hsend
  rw [← haps]
  exact activate_responses env s fresh (by rw [hcfg]; exact hf) hsend

/-- C10 witness: the theorem applied to the concrete constructor environment
whose startup scan finds two networks. -/
theorem C10_initial_cache_witness :
    (execCommand envBenign0 ⟨none, none, [apAlpha, apBeta], false, cfg0⟩
      NetworkCommand.Activate).responses
      = [NetworkCommandResponse.Networks
          (get_networks (mergeLoop [apAlpha] [apAlpha, apBeta]))] :=
  (C10_initial_cache constructorEnv cfg0
      ⟨none, none, [apAlpha, apBeta], false, cfg0⟩ [apAlpha, apBeta] rfl rfl).2.2.2.2
    envBenign0 [apAlpha] rfl rfl

/- ----------------------------------------------------------------
Benign environments and the portal session invariant (claim C2).
---------------------------------------------------------------- -/

/-- Commands that neither Exit nor Timeout can terminate the loop on their
own. -/
def benignCmd : NetworkCommand → Bool
  | NetworkCommand.Exit => false
  | NetworkCommand.Timeout => false
  | _ => true

/-- All reads the retry loop can reach succeed. -/
def ScanOk (reads : Nat → Except Err (List RawAccessPoint)) : Prop :=
  ∀ i, i < 10 → ∃ raw, reads i = .ok raw

/-- Environment in which every service call the handlers make succeeds and
no join attempt reaches the Activated state. -/
def EnvBenign (e : Env) : Prop :=
  (∃ c, e.createPortal = .ok c) ∧ (∃ d, e.startDnsmasq = .ok d) ∧
  (∃ st, e.deviceState = .ok st) ∧ (∃ b, e.hasConnDefined = .ok b) ∧
  e.deactivateResult = .ok () ∧ e.deleteResult = .ok () ∧
  e.sendResult = .ok () ∧ ScanOk e.reads ∧
  (∀ c st, e.wifiConnect = .ok (c, st) → st ≠ ConnectionState.Activated)

lemma scanAttempts_no_error (reads : Nat → Except Err (List RawAccessPoint))
    (own : String) :
    ∀ fuel retries, (∀ i, retries ≤ i → i < retries + fuel → ∃ raw, reads i = .ok raw) →
      ∃ p, scanAttempts reads own retries fuel = .ok p := by
  intro fuel
  induction fuel with
  | zero => intro retries _; exact ⟨([], retries), rfl⟩
  | succ fuel ih =>
    intro retries h
    obtain ⟨raw, hr⟩ := h retries le_rfl (by omega)
    simp only [scanAttempts, hr]
    by_cases hemp : (filterAPs own raw).isEmpty
    · rw [if_pos hemp]
      exact ih (retries + 1) (fun i hi1 hi2 => h i (by omega) (by omega))
    · rw [if_neg hemp]
      exact ⟨(filterAPs own raw, retries + 1), rfl⟩

lemma get_access_points_ok {reads : Nat → Except Err (List RawAccessPoint)}
    (h : ScanOk reads) (own : String) :
    ∃ l, get_access_points reads own = .ok l := by
  obtain ⟨p, hp⟩ := scanAttempts_no_error reads own 10 0
    (fun i _ hi => h i (by omega))
  exact ⟨p.1, by
    simp [get_access_points, get_access_points_impl, hp, Except.map, Except.mapError]⟩

lemma methodGetAccessPoints_ok {reads : Nat → Except Err (List RawAccessPoint)}
    (h : ScanOk reads) (s : HandlerState) :
    ∃ l, methodGetAccessPoints reads s = .ok l := by
  obtain ⟨fresh, hf⟩ := get_access_points_ok h s.config.ssid
  exact ⟨mergeLoop fresh s.access_points, by simp [methodGetAccessPoints, hf]⟩

lemma openOf_le_one (s : HandlerState) : openOf s ≤ 1 := by
  cases hp : s.portal_connection with
  | some c => simp [openOf, hp]
  | none => simp [openOf, hp]

lemma openAfter_append (st : Int) (a b : List Event) :
    openAfter st (a ++ b) = openAfter (openAfter st a) b := by
  simp [openAfter, List.foldl_append]

lemma traceBounded_nil {st : Int} (h : st ≤ 1) : TraceBounded st [] := by
  intro n
  simpa [openAfter] using h

lemma traceBounded_created : TraceBounded 0 [Event.created] := by
  intro n
  match n with
  | 0 => simp [openAfter]
  | n + 1 => simp [openAfter, eventDelta]

lemma traceBounded_destroyed : TraceBounded 1 [Event.destroyed] := by
  intro n
  match n with
  | 0 => simp [openAfter]
  | n + 1 => simp [openAfter, eventDelta]

lemma traceBounded_dc : TraceBounded 1 [Event.destroyed, Event.created] := by
  intro n
  match n with
  | 0 => simp [openAfter]
  | 1 => simp [openAfter, eventDelta]
  | n + 2 => simp [openAfter, eventDelta]

lemma traceBounded_append {st : Int} {a b : List Event}
    (h1 : TraceBounded st a) (h2 : TraceBounded (openAfter st a) b) :
    TraceBounded st (a ++ b) := by
  intro n
  rw [List.take_append_eq_append_take, openAfter_append]
  rcases le_or_lt n a.length with h | h
  · have hz : n - a.length = 0 := Nat.sub_eq_zero_of_le h
    rw [hz, List.take_zero]
    exact h1 n
  · rw [List.take_of_length_le (le_of_lt h)]
    exact h2 (n - a.length)

lemma connectRest_benign (env : Env) (s : HandlerState) (evs : List Event)
    (ssid identity passphrase : String) (henv : EnvBenign env) :
    ∃ conn, connectRest env s evs ssid identity passphrase
      = ⟨{ s with portal_connection := some conn },
         evs ++ [Event.created], [], none⟩ := by
  obtain ⟨⟨cp, hcp⟩, _, _, _, _, _, _, hscan, hwifi⟩ := henv
  obtain ⟨aps, haps⟩ := methodGetAccessPoints_ok hscan s
  refine ⟨cp, ?_⟩
  unfold connectRest
  rw [haps]
  dsimp only
  cases h2 : find_access_point aps ssid with
  | none => simp [reRaisePortal, hcp]
  | some ap =>
    dsimp only
    cases h3 : env.wifiConnect with
    | error e => simp [reRaisePortal, hcp]
    | ok p =>
      obtain ⟨pc, pst⟩ := p
      dsimp only
      rw [if_neg (hwifi pc pst h3)]
      simp [reRaisePortal, hcp]

lemma step_benign (env : Env) (s : HandlerState) (c : NetworkCommand)
    (hc : benignCmd c = true) (henv : EnvBenign env) :
    (execCommand env s c).outcome = none ∧
    openAfter (openOf s) (execCommand env s c).events
      = openOf (execCommand env s c).state ∧
    TraceBounded (openOf s) (execCommand env s c).events := by
  obtain ⟨⟨cp, hcp⟩, ⟨dm, hdm⟩, ⟨dst, hdst⟩, ⟨hb, hhb⟩, hdeact, hdel, hsend,
    hscan, hwifi⟩ := henv
  cases c with
  | Exit => cases hc
  | Timeout => cases hc
  | EnableAp =>
    cases hp : s.portal_connection with
    | some conn =>
      simp only [execCommand, hp]
      refine ⟨by trivial, by simp [openAfter, openOf, hp],
        traceBounded_nil (openOf_le_one s)⟩
    | none =>
      simp only [execCommand, hp, hcp, hdm]
      refine ⟨by trivial, ?_, ?_⟩
      · simp [openAfter, eventDelta, openOf, hp]
      · have h0 : openOf s = 0 := by simp [openOf, hp]
        rw [h0]
        exact traceBounded_created
  | DisableAp =>
    cases hp : s.portal_connection with
    | some conn =>
      simp only [execCommand, hp]
      refine ⟨by trivial, ?_, ?_⟩
      · simp [openAfter, eventDelta, openOf, handlerStop, hp]
      · have h1 : openOf s = 1 := by simp [openOf, hp]
        rw [h1]
        exact traceBounded_destroyed
    | none =>
      simp only [execCommand, hp]
      refine ⟨by trivial, ?_, ?_⟩
      · simp [openAfter, openOf, handlerStop, hp]
      · exact traceBounded_nil (openOf_le_one s)
  | Current =>
    simp only [execCommand, hdst, hsend]
    refine ⟨by trivial, by trivial, traceBounded_nil (openOf_le_one s)⟩
  | HasConnection =>
    simp only [execCommand, hhb, hsend]
    refine ⟨by trivial, by trivial, traceBounded_nil (openOf_le_one s)⟩
  | Activate =>
    obtain ⟨aps, haps⟩ := methodGetAccessPoints_ok hscan { s with activated := true }
    simp only [execCommand, haps, hsend]
    refine ⟨by trivial, by trivial, traceBounded_nil (openOf_le_one s)⟩
  | Connect ssid identity passphrase =>
    have henv2 : EnvBenign env :=
      ⟨⟨cp, hcp⟩, ⟨dm, hdm⟩, ⟨dst, hdst⟩, ⟨hb, hhb⟩, hdeact, hdel, hsend,
        hscan, hwifi⟩
    cases hp : s.portal_connection with
    | none =>
      obtain ⟨conn, hcr⟩ := connectRest_benign env s [] ssid identity passphrase henv2
      simp only [execCommand, hp, hcr]
      refine ⟨by trivial, ?_, ?_⟩
      · simp [openAfter, eventDelta, openOf, hp]
      · have h0 : openOf s = 0 := by simp [openOf, hp]
        rw [h0]
        exact traceBounded_created
    | some conn0 =>
      obtain ⟨conn, hcr⟩ := connectRest_benign env
        { s with portal_connection := none } [Event.destroyed]
        ssid identity passphrase henv2
      simp only [execCommand, hp, stop_portal, stop_portal_impl, hdeact, hdel,
        Except.mapError, hcr]
      refine ⟨by trivial, ?_, ?_⟩
      · simp [openAfter, eventDelta, openOf, hp]
      · have h1 : openOf s = 1 := by simp [openOf, hp]
        rw [h1]
        exact traceBounded_dc

lemma run_benign :
    ∀ (steps : List (NetworkCommand × Env)) (s : HandlerState),
      (∀ p ∈ steps, benignCmd p.1 = true ∧ EnvBenign p.2) →
      (runSteps s steps).outcome = none ∧
      openAfter (openOf s) (runSteps s steps).trace
        = openOf (runSteps s steps).state ∧
      TraceBounded (openOf s) (runSteps s steps).trace := by
  intro steps
  induction steps with
  | nil => intro s _; exact ⟨rfl, rfl, traceBounded_nil (openOf_le_one s)⟩
  | cons p rest ih =>
    intro s h
    obtain ⟨c, env⟩ := p
    have hstep := step_benign env s c (h (c, env) (List.mem_cons_self _ _)).1
      (h (c, env) (List.mem_cons_self _ _)).2
    have hrest := ih (execCommand env s c).state
      (fun q hq => h q (List.mem_cons_of_mem _ hq))
    simp only [runSteps]
    rw [hstep.1]
    dsimp only
    refine ⟨hrest.1, ?_, ?_⟩
    · rw [openAfter_append, hstep.2.1, hrest.2.1]
    · exact traceBounded_append hstep.2.2 (by rw [hstep.2.1]; exact hrest.2.2)

/- ----------------------------------------------------------------
Claim C2 (loop liveness and the at-most-one-session invariant).
---------------------------------------------------------------- -/

/-- C2 counterexample: a single Connect command, containing no Exit and no
Timeout, terminates the loop when the join attempt reaches the Activated
state, refuting the claim that the loop never terminates on such
sequences. -/
theorem C2_counterexample :
    (runSteps s0 [(NetworkCommand.Connect "alpha" "" "", envJoin)]).outcome
      = some (Except.ok ()) := rfl

/-- C2 amended: for every sequence of commands containing no Exit and no
Timeout, in which every service call succeeds and no join attempt reaches
the Activated state, the loop consumes the whole sequence without
terminating, and at every instant along the portal lifecycle trace at most
one portal session is open. -/
theorem C2_loop_amended
    (steps : List (NetworkCommand × Env)) (s : HandlerState)
    (h : ∀ p ∈ steps, benignCmd p.1 = true ∧ EnvBenign p.2) :
    (runSteps s steps).outcome = none ∧
    TraceBounded (openOf s) (runSteps s steps).trace :=
  ⟨(run_benign steps s h).1, (run_benign steps s h).2.2⟩

def benignSteps : List (NetworkCommand × Env) :=
  [(NetworkCommand.EnableAp, envBenign0),
   (NetworkCommand.Activate, envBenign0),
   (NetworkCommand.Connect "alpha" "" "", envBenign0),
   (NetworkCommand.DisableAp, envBenign0)]

lemma envBenign0_benign : EnvBenign envBenign0 :=
  ⟨⟨2, rfl⟩, ⟨3, rfl⟩, ⟨DeviceState.Other, rfl⟩, ⟨true, rfl⟩, rfl, rfl, rfl,
   fun i _ => ⟨[⟨some "alpha", secOpen⟩], rfl⟩,
   fun c st hcs => by cases hcs⟩

/-- C2 witness: the amended theorem applied to a concrete benign sequence of
four commands. -/
theorem C2_loop_amended_witness :
    (runSteps s0 benignSteps).outcome = none ∧
    TraceBounded (openOf s0) (runSteps s0 benignSteps).trace :=
  C2_loop_amended benignSteps s0 (by
    intro p hp
    simp only [benignSteps, List.mem_cons, List.not_mem_nil, or_false] at hp
    rcases hp with rfl | rfl | rfl | rfl
    · exact ⟨rfl, envBenign0_benign⟩
    · exact ⟨rfl, envBenign0_benign⟩
    · exact ⟨rfl, envBenign0_benign⟩
    · exact ⟨rfl, envBenign0_benign⟩)

end WifiConnect
